import Mathlib

/-!
Verification development for the Telegram cafe-music bot (`src/main.py`).

The bot keeps a SQLite table `channels(id, user_id, channel_id, cafe_name,
caption, logo, is_default)` with `id INTEGER PRIMARY KEY AUTOINCREMENT` and
`UNIQUE(user_id, channel_id)`, a table `songs(user_id, channel_db_id, title,
file_name, ...)`, and two process-wide Python dicts: `awaiting_logo`
(user_id -> channel db id) and `pending_audio` (user_id -> buffered audio).

We embed the database as a list of rows in rowid (insertion) order plus the
AUTOINCREMENT counter, the dicts as functions `Nat -> Option _` (a Python
dict holds at most one value per key), and each handler as a pure function
from state (plus the message arguments and the outcome of the one remote
`send_audio` call) to the new state and the list of observable Telegram API
effects it performs.
-/

namespace CafeBot

/-- A row of the `channels` table.  `cafe_name`, `caption`, `logo` are
nullable columns; `is_default` is the INTEGER flag stored as 0/1. -/
structure Chan where
  id : Nat
  user_id : Nat
  channel_id : String
  cafe_name : Option String
  caption : Option String
  logo : Option (List Nat)
  is_default : Bool
deriving DecidableEq, Repr

/-- A row of the `songs` table (timestamp omitted: it never influences
control flow). -/
structure Song where
  user_id : Nat
  channel_db_id : Nat
  title : Option String
  file_name : String
deriving DecidableEq, Repr

/-- The SQLite database: `channels` rows in rowid order, the next
AUTOINCREMENT id, and the `songs` rows in insertion order. -/
structure DB where
  channels : List Chan
  nextId : Nat
  songs : List Song
deriving DecidableEq, Repr

/-- `UPDATE channels SET ... WHERE p`: apply `f` to every row satisfying
`p`, leaving the others in place. -/
def updateWhere (p : Chan → Bool) (f : Chan → Chan) (l : List Chan) : List Chan :=
  l.map fun c => if p c then f c else c

/-- Python truthiness of an optional bytes value (`if logo_bytes:`):
`None` and the empty byte string are falsy. -/
def bytesTruthy : Option (List Nat) → Bool
  | none => false
  | some b => !b.isEmpty

/-- Python `a or b` where `a` is an optional string (`None` and `""` are
falsy) and `b` a plain string. -/
def pyOr (a : Option String) (b : String) : String :=
  match a with
  | some s => if s.isEmpty then b else s
  | none => b

/-- Python `a or b` for two optional strings, keeping the option. -/
def pyOrOpt (a b : Option String) : Option String :=
  match a with
  | some s => if s.isEmpty then b else some s
  | none => b

/-- SQL `COALESCE(x, old)`. -/
def coalesce (x old : Option String) : Option String :=
  match x with
  | some v => some v
  | none => old

/-- `SELECT ... FROM channels WHERE id=?` (`get_channel_by_dbid`): first
row in rowid order with the given id. -/
def get_channel_by_dbid (db : DB) (channel_db_id : Nat) : Option Chan :=
  db.channels.find? fun c => c.id == channel_db_id

/-- `get_default_channel`: first row of the user with `is_default=1`. -/
def get_default_channel (db : DB) (user_id : Nat) : Option Chan :=
  db.channels.find? fun c => c.user_id == user_id && c.is_default

/-- `list_channels_of_user`: all rows of the user, in rowid order. -/
def list_channels_of_user (db : DB) (user_id : Nat) : List Chan :=
  db.channels.filter fun c => c.user_id == user_id

/-- `add_or_update_channel`: insert-or-update a channel configuration,
returning the new database and the row id the Python function returns. -/
def add_or_update_channel (db : DB) (user_id : Nat) (channel_id : String)
    (cafe_name caption : Option String) (logo_bytes : Option (List Nat))
    (make_default : Bool) : DB × Nat :=
  match db.channels.find? (fun c => c.user_id == user_id && c.channel_id == channel_id) with
  | some existing =>
      let cs1 := updateWhere (fun c => c.id == existing.id)
        (fun c => { c with cafe_name := coalesce cafe_name c.cafe_name,
                           caption := coalesce caption c.caption }) db.channels
      let cs2 := if bytesTruthy logo_bytes then
          updateWhere (fun c => c.id == existing.id) (fun c => { c with logo := logo_bytes }) cs1
        else cs1
      let cs3 := if make_default then
          updateWhere (fun c => c.id == existing.id) (fun c => { c with is_default := true })
            (updateWhere (fun c => c.user_id == user_id)
              (fun c => { c with is_default := false }) cs2)
        else cs2
      ({ db with channels := cs3 }, existing.id)
  | none =>
      let cs1 := if make_default then
          updateWhere (fun c => c.user_id == user_id)
            (fun c => { c with is_default := false }) db.channels
        else db.channels
      let row : Chan := { id := db.nextId, user_id := user_id, channel_id := channel_id,
                          cafe_name := cafe_name, caption := caption, logo := logo_bytes,
                          is_default := make_default }
      ({ db with channels := cs1 ++ [row], nextId := db.nextId + 1 }, db.nextId)

/-- `set_default_channel`: clear the caller's default flags, then set the
flag on the addressed row — with no check that the caller owns it. -/
def set_default_channel (db : DB) (user_id : Nat) (channel_db_id : Nat) : DB :=
  let cs1 := updateWhere (fun c => c.user_id == user_id)
    (fun c => { c with is_default := false }) db.channels
  let cs2 := updateWhere (fun c => c.id == channel_db_id)
    (fun c => { c with is_default := true }) cs1
  { db with channels := cs2 }

/-- `record_song`: append a row to the `songs` table. -/
def record_song (db : DB) (user_id : Nat) (channel_db_id : Nat)
    (title : Option String) (file_name : String) : DB :=
  { db with songs := db.songs ++ [{ user_id := user_id, channel_db_id := channel_db_id,
                                    title := title, file_name := file_name }] }

/-- An entry of the in-memory `pending_audio` dict: audio bytes, the title
(possibly Python `None`), and the file name. -/
structure Pend where
  buf : List Nat
  title : Option String
  file_name : String
deriving DecidableEq, Repr

/-- The whole process state: database plus the two in-memory dicts. -/
structure BotState where
  db : DB
  awaiting_logo : Nat → Option Nat
  pending_audio : Nat → Option Pend

/-- Point update of a dict (`d[k] = v` / `d.pop(k)`). -/
def mapSet {α : Type} (m : Nat → Option α) (k : Nat) (v : Option α) : Nat → Option α :=
  fun k' => if k' = k then v else m k'

/-- The observable Telegram API effects a handler performs, in order.
`sendAudio` records an *attempted* `bot.send_audio` call (it is emitted
whether or not the remote call then raises). -/
inductive Out where
  | replyText (text : String)
  | replyKeyboard (text : String) (buttons : List (String × String))
  | sendMessage (chat_id : Nat) (text : String)
  | sendAudio (chat_id : String) (title : Option String) (performer : String)
      (thumb : Option (List Nat)) (caption : String)
  | editMessageText (text : String)
deriving DecidableEq, Repr

/-- An incoming audio message, after `audio_handler` has identified it as
audio (`update.message.audio`, `.voice`, or an audio document).
`has_title` records whether the object has a `title` attribute at all
(Audio does, Voice and Document do not); `title` / `file_name` are the
attribute values, `none` standing for Python `None`. -/
structure AudioMsg where
  has_title : Bool
  title : Option String
  file_name : Option String
  bytes : List Nat
deriving DecidableEq, Repr

/-- `file_name = getattr(audio_msg, "file_name", None) or
getattr(audio_msg, "title", None) or "track"`. -/
def audio_file_name (m : AudioMsg) : String :=
  pyOr (pyOrOpt m.file_name (if m.has_title then m.title else none)) "track"

/-- The `pending_audio` entry `audio_handler` stores:
`title = getattr(audio_msg, "title", file_name)` (the default fires only
when the attribute is absent, so an Audio with `title=None` stores `None`). -/
def pend_of_audio (m : AudioMsg) : Pend :=
  let fn := audio_file_name m
  { buf := m.bytes,
    title := if m.has_title then m.title else some fn,
    file_name := fn }

/-- `do_post_audio_for_user_channel`: pop the pending audio, look up the
channel row, attempt the remote `send_audio`, and on success append a
`songs` row.  `sendResult` is the outcome of the one remote call:
`none` = it returned, `some e` = it raised an exception whose `str()` is
`e`.  Returns the new state and the Telegram effects in order. -/
def do_post_audio_for_user_channel (st : BotState) (user_id : Nat)
    (channel_db_id : Nat) (sendResult : Option String) : BotState × List Out :=
  match st.pending_audio user_id with
  | none => (st, [Out.sendMessage user_id "خطا: فایل صوتی مفقود شد."])
  | some pend =>
    let st1 : BotState := { st with pending_audio := mapSet st.pending_audio user_id none }
    match get_channel_by_dbid st.db channel_db_id with
    | none => (st1, [Out.sendMessage user_id "کانال انتخابی یافت نشد."])
    | some rec =>
      let thumb := if bytesTruthy rec.logo then rec.logo else none
      let attempt := Out.sendAudio rec.channel_id pend.title rec.channel_id thumb
        (pyOr rec.caption "")
      match sendResult with
      | none =>
        let db1 := record_song st.db user_id channel_db_id pend.title pend.file_name
        ({ st1 with db := db1 },
         [attempt, Out.sendMessage user_id ("✅ آهنگ در " ++ rec.channel_id ++ " منتشر شد.")])
      | some e =>
        (st1, [attempt, Out.sendMessage user_id ("ارسال به کانال با خطا مواجه شد:\n" ++ e)])

/-- `audio_handler` after an audio message has been recognized and
downloaded: store the pending entry (overwriting any previous one for
this user), then branch on the user's channel list. -/
def audio_handler (st : BotState) (user_id : Nat) (m : AudioMsg)
    (sendResult : Option String) : BotState × List Out :=
  let st1 : BotState :=
    { st with pending_audio := mapSet st.pending_audio user_id (some (pend_of_audio m)) }
  match list_channels_of_user st1.db user_id with
  | [] => (st1, [Out.replyText "ابتدا حداقل یک کانال اضافه کن: /addchannel"])
  | [r] => do_post_audio_for_user_channel st1 user_id r.id sendResult
  | rows =>
    let buttons := rows.map fun c =>
      let name := pyOr c.cafe_name ""
      let label := if name.isEmpty then c.channel_id
        else c.channel_id ++ " (" ++ name ++ ")"
      (label, "post:" ++ toString c.id)
    (st1, [Out.replyKeyboard "کدام کانال را انتخاب می‌کنید؟" buttons])

/-- `data.startswith("post:")`, computed on the character list. -/
def strStartsWith (s pre : String) : Bool :=
  pre.data.isPrefixOf s.data

/-- One decimal digit of a character, `none` otherwise. -/
def charDigit? (c : Char) : Option Nat :=
  if c.isDigit then some (c.toNat - Char.toNat '0') else none

/-- Python `int(...)` on the canonical `<digits>` payload the bot itself
generates for callback data: all-digit strings parse, anything else
raises (modelled as `none`). -/
def parseNat? (l : List Char) : Option Nat :=
  match l with
  | [] => none
  | _ => l.foldl (fun acc c => acc.bind fun n => (charDigit? c).map fun d => n * 10 + d)
      (some 0)

/-- `callback_query_handler`: on `post:<dbid>` data, parse the id
(`int(data.split(":",1)[1])` — after the `post:` check this is the text
past the first colon, i.e. the characters after the 5-character prefix),
check a pending audio exists, and relay. -/
def callback_query_handler (st : BotState) (from_user : Nat) (data : String)
    (sendResult : Option String) : BotState × List Out :=
  if strStartsWith data "post:" then
    match parseNat? (data.data.drop 5) with
    | none => (st, [Out.editMessageText "اطلاعات نامعتبر."])
    | some dbid =>
      match st.pending_audio from_user with
      | none => (st, [Out.editMessageText "فایل صوتی پیدا نشد؛ لطفاً دوباره فایل را ارسال کنید."])
      | some _ =>
        let r := do_post_audio_for_user_channel st from_user dbid sendResult
        (r.1, r.2 ++ [Out.editMessageText "در حال ارسال به کانال..."])
  else (st, [])

/-- `cmd_addchannel` with its space-split argument list
(`context.args`).  An empty list yields the usage message; otherwise the
first token is the channel id and the rest joined by spaces the cafe name. -/
def cmd_addchannel (st : BotState) (sender : Nat) (args : List String) : BotState × List Out :=
  match args with
  | [] => (st, [Out.replyText "Usage: /addchannel <@channel یا -100...> [اسم_کافه]"])
  | channel_id :: rest =>
    let cafe_name := if rest.isEmpty then none else some (String.intercalate " " rest)
    let r := add_or_update_channel st.db sender channel_id cafe_name none none false
    ({ st with db := r.1 },
     [Out.replyText ("✅ کانال اضافه/به‌روز شد (db_id=" ++ toString r.2 ++
       "). برای آپلود لوگو: /setlogo " ++ toString r.2)])

/-- `cmd_setdefault` after its argument parsed as an integer (the
non-integer and missing-argument paths reply a usage message and leave the
state unchanged). -/
def cmd_setdefault (st : BotState) (sender : Nat) (dbid : Nat) : BotState × List Out :=
  ({ st with db := set_default_channel st.db sender dbid },
   [Out.replyText "✅ کانال پیش‌فرض تنظیم شد."])

/-- `cmd_setname` after argument parsing: `UPDATE channels SET cafe_name=?
WHERE id=?` — note the sender is not consulted. -/
def cmd_setname (st : BotState) (sender : Nat) (dbid : Nat) (name : String) : BotState × List Out :=
  let cs := updateWhere (fun c => c.id == dbid) (fun c => { c with cafe_name := some name })
    st.db.channels
  ({ st with db := { st.db with channels := cs } }, [Out.replyText "✅ نام کافه تنظیم شد."])

/-- `cmd_setcaption` after argument parsing: `UPDATE channels SET
caption=? WHERE id=?` — the sender is not consulted. -/
def cmd_setcaption (st : BotState) (sender : Nat) (dbid : Nat) (cap : String) : BotState × List Out :=
  let cs := updateWhere (fun c => c.id == dbid) (fun c => { c with caption := some cap })
    st.db.channels
  ({ st with db := { st.db with channels := cs } }, [Out.replyText "✅ کپشن تنظیم شد."])

/-- `cmd_setlogo` after argument parsing: verify the row exists and its
owner is the sender, then arm `awaiting_logo[sender] = dbid`.  The
database is not touched. -/
def cmd_setlogo (st : BotState) (sender : Nat) (dbid : Nat) : BotState × List Out :=
  match get_channel_by_dbid st.db dbid with
  | none => (st, [Out.replyText "کانال پیدا نشد یا ادمین شما نیستید."])
  | some rec =>
    if rec.user_id == sender then
      ({ st with awaiting_logo := mapSet st.awaiting_logo sender (some dbid) },
       [Out.replyText "لطفاً اکنون یک عکس (photo) ارسال کنید تا به‌عنوان لوگو ذخیره شود."])
    else
      (st, [Out.replyText "کانال پیدا نشد یا ادمین شما نیستید."])

/-- `photo_handler`: if a logo is awaited from the sender, pop the entry,
run the photo bytes through the image normalizer and store the result as
the row's logo.  `resize` stands for `resize_image_bytes` (PIL decode /
convert / thumbnail / JPEG encode — external to this model). -/
def photo_handler (st : BotState) (sender : Nat) (resize : List Nat → List Nat)
    (photo_bytes : List Nat) : BotState × List Out :=
  match st.awaiting_logo sender with
  | some dbid =>
    let resized := resize photo_bytes
    let cs := updateWhere (fun c => c.id == dbid) (fun c => { c with logo := some resized })
      st.db.channels
    ({ st with awaiting_logo := mapSet st.awaiting_logo sender none,
               db := { st.db with channels := cs } },
     [Out.replyText "✅ لوگو ذخیره شد و برای آن کانال اعمال می‌شود."])
  | none =>
    (st, [Out.replyText "اگر می‌خواهی لوگو ست کنی، ابتدا از /setlogo <channel_db_id> استفاده کن."])

/-- One incoming update, for reasoning about reachable states: every
handler that can change the database or the in-memory dicts. -/
inductive Op where
  | addchannel (sender : Nat) (args : List String)
  | setdefault (sender : Nat) (dbid : Nat)
  | setname (sender : Nat) (dbid : Nat) (name : String)
  | setcaption (sender : Nat) (dbid : Nat) (cap : String)
  | setlogo (sender : Nat) (dbid : Nat)
  | photo (sender : Nat) (photo_bytes : List Nat)
  | audio (sender : Nat) (m : AudioMsg) (sendResult : Option String)
  | callback (sender : Nat) (data : String) (sendResult : Option String)

/-- Dispatch one update (discarding the Telegram effects).  `resize` is
the image normalizer used by `photo_handler`. -/
def step (resize : List Nat → List Nat) (st : BotState) : Op → BotState
  | Op.addchannel sender args => (cmd_addchannel st sender args).1
  | Op.setdefault sender dbid => (cmd_setdefault st sender dbid).1
  | Op.setname sender dbid name => (cmd_setname st sender dbid name).1
  | Op.setcaption sender dbid cap => (cmd_setcaption st sender dbid cap).1
  | Op.setlogo sender dbid => (cmd_setlogo st sender dbid).1
  | Op.photo sender bs => (photo_handler st sender resize bs).1
  | Op.audio sender m res => (audio_handler st sender m res).1
  | Op.callback sender data res => (callback_query_handler st sender data res).1

/-- Process a list of updates in order. -/
def run (resize : List Nat → List Nat) (st : BotState) (ops : List Op) : BotState :=
  ops.foldl (step resize) st

/-- The state right after `init_db()`: empty tables (AUTOINCREMENT ids
start at 1) and empty dicts. -/
def initState : BotState :=
  { db := { channels := [], nextId := 1, songs := [] },
    awaiting_logo := fun _ => none,
    pending_audio := fun _ => none }

/-- Does an effect attempt a `send_audio` (a relay to a channel)? -/
def isSendAudio : Out → Bool
  | Out.sendAudio _ _ _ _ _ => true
  | _ => false

/-! ### Structural lemmas about the embedded database -/

/-- Well-formedness SQLite guarantees for the `channels` table: rowids are
distinct and below the AUTOINCREMENT counter. -/
def WFl (l : List Chan) (n : Nat) : Prop :=
  (l.map Chan.id).Nodup ∧ ∀ c ∈ l, c.id < n

/-- Well-formed database. -/
def WF (db : DB) : Prop :=
  WFl db.channels db.nextId

/-- Every row of `l` survives into `l'` with its id and owner intact. -/
def ChanPres (l l' : List Chan) : Prop :=
  ∀ c ∈ l, ∃ c' ∈ l', c'.id = c.id ∧ c'.user_id = c.user_id

theorem updateWhere_map_id {p : Chan → Bool} {f : Chan → Chan}
    (hf : ∀ c, (f c).id = c.id) (l : List Chan) :
    (updateWhere p f l).map Chan.id = l.map Chan.id := by
  unfold updateWhere
  rw [List.map_map]
  apply List.map_congr_left
  intro c _
  by_cases h : p c <;> simp [h, hf, Function.comp]

theorem chanPres_refl (l : List Chan) : ChanPres l l :=
  fun c hc => ⟨c, hc, rfl, rfl⟩

theorem chanPres_trans {l₁ l₂ l₃ : List Chan} (h₁ : ChanPres l₁ l₂) (h₂ : ChanPres l₂ l₃) :
    ChanPres l₁ l₃ := by
  intro c hc
  obtain ⟨c', hc', hid, hu⟩ := h₁ c hc
  obtain ⟨c'', hc'', hid', hu'⟩ := h₂ c' hc'
  exact ⟨c'', hc'', hid'.trans hid, hu'.trans hu⟩

theorem chanPres_updateWhere {p : Chan → Bool} {f : Chan → Chan}
    (hf : ∀ c, (f c).id = c.id ∧ (f c).user_id = c.user_id) (l : List Chan) :
    ChanPres l (updateWhere p f l) := by
  intro c hc
  refine ⟨if p c then f c else c, ?_, ?_, ?_⟩
  · exact List.mem_map_of_mem _ hc
  · by_cases h : p c <;> simp [h, (hf c).1]
  · by_cases h : p c <;> simp [h, (hf c).2]

theorem chanPres_append (l l₂ : List Chan) : ChanPres l (l ++ l₂) :=
  fun c hc => ⟨c, List.mem_append_left _ hc, rfl, rfl⟩

theorem WFl_updateWhere {p : Chan → Bool} {f : Chan → Chan} {l : List Chan} {n : Nat}
    (h : WFl l n) (hf : ∀ c, (f c).id = c.id) : WFl (updateWhere p f l) n := by
  constructor
  · rw [updateWhere_map_id hf]
    exact h.1
  · intro c' hc'
    obtain ⟨c, hc, rfl⟩ := List.mem_map.1 hc'
    by_cases hp : p c <;> simp only [hp, if_true, if_false, hf] <;> exact h.2 c hc

theorem WFl_append_fresh {l : List Chan} {n : Nat} {c : Chan}
    (h : WFl l n) (hc : c.id = n) : WFl (l ++ [c]) (n + 1) := by
  constructor
  · rw [List.map_append]
    rw [List.nodup_append]
    refine ⟨h.1, List.nodup_singleton _, ?_⟩
    intro x hx hy
    simp only [List.map_singleton, List.mem_singleton] at hy
    subst hy
    obtain ⟨d, hd, hdx⟩ := List.mem_map.1 hx
    exact absurd (hdx.trans hc) (Nat.ne_of_lt (h.2 d hd))
  · intro x hx
    rcases List.mem_append.1 hx with h1 | h1
    · exact Nat.lt_succ_of_lt (h.2 x h1)
    · rw [List.mem_singleton.1 h1, hc]
      exact Nat.lt_succ_self n

/-- In a well-formed table two rows with the same id coincide. -/
theorem WFl_unique {l : List Chan} {n : Nat} (h : WFl l n) {c₁ c₂ : Chan}
    (h₁ : c₁ ∈ l) (h₂ : c₂ ∈ l) (hid : c₁.id = c₂.id) : c₁ = c₂ :=
  List.inj_on_of_nodup_map h.1 h₁ h₂ hid

/-- In a well-formed table, looking up a member row by its id finds it. -/
theorem find?_id_of_mem {l : List Chan} {n : Nat} (h : WFl l n) {c : Chan} (hc : c ∈ l) :
    l.find? (fun x => x.id == c.id) = some c := by
  have hsome : (l.find? (fun x => x.id == c.id)).isSome :=
    List.find?_isSome.2 ⟨c, hc, by simp⟩
  obtain ⟨d, hd⟩ := Option.isSome_iff_exists.1 hsome
  have hdm := List.mem_of_find?_eq_some hd
  have hdp : d.id = c.id := by simpa using List.find?_some hd
  rw [hd, WFl_unique h hdm hc hdp]

/-- Looking a row up by id commutes with an id-preserving `UPDATE`. -/
theorem find?_id_updateWhere {p : Chan → Bool} {f : Chan → Chan}
    (hf : ∀ c, (f c).id = c.id) (l : List Chan) (i : Nat) :
    (updateWhere p f l).find? (fun x => x.id == i)
      = (l.find? (fun x => x.id == i)).map (fun c => if p c then f c else c) := by
  unfold updateWhere
  have hpred : ((fun x => x.id == i) ∘ fun c => if p c then f c else c)
      = (fun c : Chan => c.id == i) := by
    funext c
    by_cases h : p c <;> simp [h, hf, Function.comp]
  rw [List.find?_map, hpred]

/-! ### Sample states used by concrete evaluations -/

/-- A state with the given `channels` rows, AUTOINCREMENT counter, no
songs, and empty in-memory dicts. -/
def mkState (cs : List Chan) (n : Nat) : BotState :=
  { db := { channels := cs, nextId := n, songs := [] },
    awaiting_logo := fun _ => none,
    pending_audio := fun _ => none }

/-- Row 1 of the sample table: user 1's channel `a`, not default. -/
def rowA : Chan :=
  { id := 1, user_id := 1, channel_id := "a", cafe_name := none, caption := none,
    logo := none, is_default := false }

/-- Row 2 of the sample table: user 1's channel `b`, marked default. -/
def rowB : Chan :=
  { id := 2, user_id := 1, channel_id := "b", cafe_name := none, caption := none,
    logo := none, is_default := true }

/-- A row owned by user 2. -/
def rowOther : Chan :=
  { id := 1, user_id := 2, channel_id := "b", cafe_name := none, caption := none,
    logo := none, is_default := false }

/-- A sample incoming audio message. -/
def sampleMsg : AudioMsg :=
  { has_title := true, title := some "t", file_name := some "f.mp3", bytes := [1, 2] }

/-- A state where user 1 owns two channels, the second one default. -/
def twoChanState : BotState := mkState [rowA, rowB] 3

/-- `twoChanState` with a pending audio already stored for user 1. -/
def twoChanPending : BotState :=
  { twoChanState with
    pending_audio := mapSet twoChanState.pending_audio 1 (some (pend_of_audio sampleMsg)) }

/-- The database reached from an empty table by: owner 2 adds channel
`c1` as default (row id 1), owner 2 adds channel `c2` (row id 2), then
user 1 runs `/setdefault 2` on owner 2's row. -/
def crossDefaultDB : DB :=
  set_default_channel
    (add_or_update_channel
      (add_or_update_channel { channels := [], nextId := 1, songs := [] }
        2 "c1" none none none true).1
      2 "c2" none none none false).1
    1 2

/-! ### Claims -/

/-- C1: the spec's data-model invariant — at most one `channels` row per
owner with `is_default = 1` — is violated by the code: `set_default_channel`
clears only the *caller's* default flags before setting the flag on the
addressed row, without checking that the caller owns it.  After owner 2
adds two channels (the first default) and user 1 calls
`set_default_channel(1, 2)`, owner 2 has two default rows. -/
theorem C1_default_uniqueness_broken :
    (crossDefaultDB.channels.filter fun c => c.user_id == 2 && c.is_default).length = 2 := by
  decide

/-- C2 counterexample: the claim "cmd_setname leaves every row whose
user_id differs from the sender unchanged" is false — sender 1 runs
`/setname 1 pwned` on the row owned by user 2 and that row changes. -/
theorem C2_counterexample :
    ¬ ((cmd_setname (mkState [rowOther] 2) 1 1 "pwned").1.db.channels.filter
          (fun c => !(c.user_id == 1))
        = (mkState [rowOther] 2).db.channels.filter fun c => !(c.user_id == 1)) := by
  decide

/-- C2 (amended): `cmd_setlogo` changes no database row at all (ownership
is verified there, and only the `awaiting_logo` dict is armed), while
`cmd_setname` and `cmd_setcaption` leave unchanged every row whose id
differs from the addressed channel db id — the addressed row is updated
regardless of its owner. -/
theorem C2_per_row_frame (st : BotState) (sender dbid : Nat) (name cap : String) :
    (cmd_setlogo st sender dbid).1.db = st.db ∧
    (∀ (i : Nat) (c : Chan), st.db.channels[i]? = some c → c.id ≠ dbid →
      (cmd_setname st sender dbid name).1.db.channels[i]? = some c) ∧
    (∀ (i : Nat) (c : Chan), st.db.channels[i]? = some c → c.id ≠ dbid →
      (cmd_setcaption st sender dbid cap).1.db.channels[i]? = some c) := by
  refine ⟨?_, ?_, ?_⟩
  · unfold cmd_setlogo
    cases hrec : get_channel_by_dbid st.db dbid with
    | none => simp [hrec]
    | some rec =>
      simp only [hrec]
      by_cases ho : rec.user_id == sender <;> simp [ho]
  · intro i c hi hc
    unfold cmd_setname updateWhere
    simp [List.getElem?_map, hi]
    exact fun hcd => absurd hcd hc
  · intro i c hi hc
    unfold cmd_setcaption updateWhere
    simp [List.getElem?_map, hi]
    exact fun hcd => absurd hcd hc

/-- C2 witness: at a concrete state, a row not addressed by the command
is untouched. -/
theorem C2_per_row_frame_witness :
    (cmd_setname (mkState [rowOther] 2) 1 2 "x").1.db.channels[0]? = some rowOther :=
  (C2_per_row_frame (mkState [rowOther] 2) 1 2 "x" "y").2.1 0 rowOther (by decide) (by decide)

/-- C3 counterexample: user 1 has two channels of which channel `b`
(db id 2) is marked default; sending an audio does *not* post to the
default channel — no `send_audio` is attempted and the handler answers
with the selection keyboard instead. -/
theorem C3_counterexample :
    ((audio_handler twoChanState 1 sampleMsg none).2.all fun o => !isSendAudio o) = true ∧
    (audio_handler twoChanState 1 sampleMsg none).2
      = [Out.replyKeyboard "کدام کانال را انتخاب می‌کنید؟" [("a", "post:1"), ("b", "post:2")]] := by
  decide

/-- C3 (amended): the default flag is never consulted by the audio flow —
whenever an owner has two or more configured channels the handler always
presents the selection keyboard (and performs no relay and no database
change), default flag or not; an explicit selection is always required. -/
theorem C3_default_not_consulted (st : BotState) (uid : Nat) (m : AudioMsg)
    (res : Option String) (h : 2 ≤ (list_channels_of_user st.db uid).length) :
    (audio_handler st uid m res).1.db = st.db ∧
    ∃ btns, (audio_handler st uid m res).2
      = [Out.replyKeyboard "کدام کانال را انتخاب می‌کنید؟" btns] := by
  unfold audio_handler
  rcases hl : list_channels_of_user st.db uid with _ | ⟨a, _ | ⟨b, rest⟩⟩
  · rw [hl] at h
    simp at h
  · rw [hl] at h
    simp at h
  · simp only [hl]
    exact ⟨trivial, _, rfl⟩

/-- C3 witness: with two channels (one default) the handler answers with
the keyboard and leaves the database unchanged. -/
theorem C3_default_not_consulted_witness :
    (audio_handler twoChanState 1 sampleMsg none).1.db = twoChanState.db ∧
    ∃ btns, (audio_handler twoChanState 1 sampleMsg none).2
      = [Out.replyKeyboard "کدام کانال را انتخاب می‌کنید؟" btns] :=
  C3_default_not_consulted twoChanState 1 sampleMsg none (by decide)

/-- C6: round-trip of configuration values — on a well-formed database,
`add_or_update_channel(u, cid, nm, cap)` returns a row id under which
`get_channel_by_dbid` finds a record carrying exactly the stored channel
identifier, cafe name, and caption. -/
theorem C6_roundtrip (db : DB) (u : Nat) (cid nm cap : String) (h : WF db) :
    ∃ rec,
      get_channel_by_dbid (add_or_update_channel db u cid (some nm) (some cap) none false).1
        (add_or_update_channel db u cid (some nm) (some cap) none false).2 = some rec ∧
      rec.channel_id = cid ∧ rec.cafe_name = some nm ∧ rec.caption = some cap := by
  unfold add_or_update_channel
  cases hfind : db.channels.find? (fun c => c.user_id == u && c.channel_id == cid) with
  | none =>
    simp only [hfind]
    refine ⟨{ id := db.nextId, user_id := u, channel_id := cid, cafe_name := some nm,
              caption := some cap, logo := none, is_default := false }, ?_, rfl, rfl, rfl⟩
    unfold get_channel_by_dbid
    have h1 : db.channels.find? (fun c => c.id == db.nextId) = none := by
      rw [List.find?_eq_none]
      intro x hx
      simp only [beq_iff_eq]
      exact Nat.ne_of_lt (h.2 x hx)
    show (db.channels ++
        [({ id := db.nextId, user_id := u, channel_id := cid, cafe_name := some nm,
            caption := some cap, logo := none, is_default := false } : Chan)]).find?
      (fun c => c.id == db.nextId) = _
    rw [List.find?_append, h1]
    simp
  | some existing =>
    simp only [hfind]
    have hmem := List.mem_of_find?_eq_some hfind
    have hp := List.find?_some hfind
    rw [Bool.and_eq_true] at hp
    have hcid : existing.channel_id = cid := by simpa using hp.2
    refine ⟨{ existing with cafe_name := some nm, caption := some cap }, ?_, hcid, rfl, rfl⟩
    unfold get_channel_by_dbid
    show (updateWhere (fun c => c.id == existing.id)
        (fun c : Chan => { c with cafe_name := coalesce (some nm) c.cafe_name,
                                  caption := coalesce (some cap) c.caption }) db.channels).find?
      (fun c => c.id == existing.id) = _
    rw [@find?_id_updateWhere (fun c => c.id == existing.id)
        (fun c : Chan => { c with cafe_name := coalesce (some nm) c.cafe_name,
                                  caption := coalesce (some cap) c.caption })
        (fun c => rfl) db.channels existing.id,
      find?_id_of_mem h hmem]
    simp [coalesce]

/-- C6 witness: storing a configuration in the empty database and reading
it back. -/
theorem C6_roundtrip_witness :
    ∃ rec,
      get_channel_by_dbid
        (add_or_update_channel { channels := [], nextId := 1, songs := [] }
          1 "a" (some "n") (some "c") none false).1
        (add_or_update_channel { channels := [], nextId := 1, songs := [] }
          1 "a" (some "n") (some "c") none false).2 = some rec ∧
      rec.channel_id = "a" ∧ rec.cafe_name = some "n" ∧ rec.caption = some "c" :=
  C6_roundtrip { channels := [], nextId := 1, songs := [] } 1 "a" "n" "c"
    ⟨List.nodup_nil, by simp⟩

/-- A state where user 1 owns exactly one channel. -/
def oneChanState : BotState := mkState [rowA] 2

/-- C4: branch structure of the audio flow.  With zero configured
channels the handler answers the fixed configure-first prompt and changes
no database row; with exactly one channel (and a successful remote send)
the audio is relayed to it immediately; with two or more channels only
the selection keyboard is shown (no `send_audio` attempt), and a
`post:<dbid>` selection callback while the pending audio exists performs
exactly the relay effects followed by the confirmation edit. -/
theorem C4_audio_flow (st : BotState) (uid : Nat) (m : AudioMsg) (res : Option String)
    (data : String) (dbid : Nat) (h : WF st.db) :
    (list_channels_of_user st.db uid = [] →
      (audio_handler st uid m res).2
        = [Out.replyText "ابتدا حداقل یک کانال اضافه کن: /addchannel"] ∧
      (audio_handler st uid m res).1.db = st.db) ∧
    (∀ c : Chan, list_channels_of_user st.db uid = [c] → res = none →
      (audio_handler st uid m res).2
        = [Out.sendAudio c.channel_id (pend_of_audio m).title c.channel_id
             (if bytesTruthy c.logo then c.logo else none) (pyOr c.caption ""),
           Out.sendMessage uid ("✅ آهنگ در " ++ c.channel_id ++ " منتشر شد.")]) ∧
    (2 ≤ (list_channels_of_user st.db uid).length →
      (∃ btns, (audio_handler st uid m res).2
          = [Out.replyKeyboard "کدام کانال را انتخاب می‌کنید؟" btns]) ∧
      ((audio_handler st uid m res).2.all fun o => !isSendAudio o) = true) ∧
    (strStartsWith data "post:" = true → parseNat? (data.data.drop 5) = some dbid →
      st.pending_audio uid ≠ none →
      (callback_query_handler st uid data res).2
        = (do_post_audio_for_user_channel st uid dbid res).2
            ++ [Out.editMessageText "در حال ارسال به کانال..."]) := by
  refine ⟨?_, ?_, ?_, ?_⟩
  · intro hl
    unfold audio_handler
    simp only [hl]
    constructor <;> trivial
  · intro c hl hres
    subst hres
    have hcm : c ∈ st.db.channels := by
      have : c ∈ list_channels_of_user st.db uid := by
        rw [hl]
        exact List.mem_singleton_self c
      exact List.mem_of_mem_filter this
    have hfind : get_channel_by_dbid st.db c.id = some c := find?_id_of_mem h hcm
    unfold audio_handler
    simp only [hl]
    unfold do_post_audio_for_user_channel
    simp [mapSet, hfind]
  · intro hl
    rcases hlist : list_channels_of_user st.db uid with _ | ⟨a, _ | ⟨b, rest⟩⟩
    · rw [hlist] at hl
      simp at hl
    · rw [hlist] at hl
      simp at hl
    · unfold audio_handler
      simp only [hlist]
      exact ⟨⟨_, rfl⟩, rfl⟩
  · intro hsw hparse hpend
    unfold callback_query_handler
    rw [if_pos hsw, hparse]
    cases hp : st.pending_audio uid with
    | none => exact absurd hp hpend
    | some pend => rfl

/-- C4 witness: the three branches and the callback relay at concrete
states. -/
theorem C4_audio_flow_witness :
    (audio_handler initState 1 sampleMsg none).2
      = [Out.replyText "ابتدا حداقل یک کانال اضافه کن: /addchannel"] ∧
    (audio_handler oneChanState 1 sampleMsg none).2
      = [Out.sendAudio "a" (some "t") "a" none "",
         Out.sendMessage 1 "✅ آهنگ در a منتشر شد."] ∧
    (∃ btns, (audio_handler twoChanState 1 sampleMsg none).2
        = [Out.replyKeyboard "کدام کانال را انتخاب می‌کنید؟" btns]) ∧
    (callback_query_handler twoChanPending 1 "post:2" none).2
      = (do_post_audio_for_user_channel twoChanPending 1 2 none).2
          ++ [Out.editMessageText "در حال ارسال به کانال..."] := by
  refine ⟨?_, ?_, ?_, ?_⟩
  · exact ((C4_audio_flow initState 1 sampleMsg none "post:1" 1
      ⟨by decide, by decide⟩).1 (by decide)).1
  · exact (C4_audio_flow oneChanState 1 sampleMsg none "post:1" 1
      ⟨by decide, by decide⟩).2.1 rowA (by decide) rfl
  · exact ((C4_audio_flow twoChanState 1 sampleMsg none "post:2" 2
      ⟨by decide, by decide⟩).2.2.1 (by decide)).1
  · exact (C4_audio_flow twoChanPending 1 sampleMsg none "post:2" 2
      ⟨by decide, by decide⟩).2.2.2 (by decide) (by decide) (by decide)

/-- C5: when the remote send raises, `do_post_audio_for_user_channel`
leaves the whole database unchanged (in particular no `songs` row is
appended), performs exactly one `send_audio` attempt (no retry), and
sends the exception text to the originating user as a chat message. -/
theorem C5_send_failure (st : BotState) (uid dbid : Nat) (pend : Pend) (rec : Chan)
    (e : String) (hp : st.pending_audio uid = some pend)
    (hc : get_channel_by_dbid st.db dbid = some rec) :
    (do_post_audio_for_user_channel st uid dbid (some e)).1.db = st.db ∧
    (do_post_audio_for_user_channel st uid dbid (some e)).2
      = [Out.sendAudio rec.channel_id pend.title rec.channel_id
           (if bytesTruthy rec.logo then rec.logo else none) (pyOr rec.caption ""),
         Out.sendMessage uid ("ارسال به کانال با خطا مواجه شد:\n" ++ e)] ∧
    ((do_post_audio_for_user_channel st uid dbid (some e)).2.countP isSendAudio) = 1 := by
  unfold do_post_audio_for_user_channel
  rw [hp, hc]
  exact ⟨rfl, rfl, rfl⟩

/-- C5 witness: a failing send at a concrete state. -/
theorem C5_send_failure_witness :
    (do_post_audio_for_user_channel twoChanPending 1 2 (some "boom")).1.db
        = twoChanPending.db ∧
    (do_post_audio_for_user_channel twoChanPending 1 2 (some "boom")).2
      = [Out.sendAudio "b" (some "t") "b" none "",
         Out.sendMessage 1 "ارسال به کانال با خطا مواجه شد:\nboom"] ∧
    ((do_post_audio_for_user_channel twoChanPending 1 2 (some "boom")).2.countP isSendAudio)
        = 1 :=
  C5_send_failure twoChanPending 1 2 (pend_of_audio sampleMsg) rowB "boom"
    (by decide) (by decide)

/-- C8: the pending-upload dict holds at most one entry per user (it is a
map keyed by the owner); a new audio overwrites the user's entry (visible
as the stored value whenever the flow does not immediately consume it);
the first consumption removes the entry; and a second consumption attempt
relays nothing — it only reports the audio as lost, leaving the state
unchanged. -/
theorem C8_pending_overwrite_and_consume (st : BotState) (uid dbid dbid' : Nat)
    (m : AudioMsg) (res res' : Option String) (pend : Pend) :
    ((list_channels_of_user st.db uid).length ≠ 1 →
      (audio_handler st uid m res).1.pending_audio uid = some (pend_of_audio m)) ∧
    (st.pending_audio uid = some pend →
      (do_post_audio_for_user_channel st uid dbid res).1.pending_audio uid = none) ∧
    (st.pending_audio uid = some pend →
      do_post_audio_for_user_channel
          (do_post_audio_for_user_channel st uid dbid res).1 uid dbid' res'
        = ((do_post_audio_for_user_channel st uid dbid res).1,
           [Out.sendMessage uid "خطا: فایل صوتی مفقود شد."])) := by
  have hpop : ∀ hpend : st.pending_audio uid = some pend,
      (do_post_audio_for_user_channel st uid dbid res).1.pending_audio uid = none := by
    intro hpend
    unfold do_post_audio_for_user_channel
    rw [hpend]
    cases hc : get_channel_by_dbid st.db dbid with
    | none => simp [mapSet]
    | some rec =>
      cases res with
      | none => simp [mapSet]
      | some e => simp [mapSet]
  refine ⟨?_, hpop, ?_⟩
  · intro hl
    unfold audio_handler
    rcases hlist : list_channels_of_user st.db uid with _ | ⟨a, _ | ⟨b, rest⟩⟩
    · simp only [hlist]
      simp [mapSet]
    · rw [hlist] at hl
      simp at hl
    · simp only [hlist]
      simp [mapSet]
  · intro hpend
    have h2 := hpop hpend
    generalize (do_post_audio_for_user_channel st uid dbid res).1 = st2 at h2 ⊢
    unfold do_post_audio_for_user_channel
    rw [h2]

/-- C8 witness: overwrite, consumption, and the failed second consumption
at a concrete state. -/
theorem C8_pending_overwrite_and_consume_witness :
    (audio_handler twoChanState 1 sampleMsg none).1.pending_audio 1
        = some (pend_of_audio sampleMsg) ∧
    (do_post_audio_for_user_channel twoChanPending 1 2 none).1.pending_audio 1 = none ∧
    do_post_audio_for_user_channel
        (do_post_audio_for_user_channel twoChanPending 1 2 none).1 1 2 none
      = ((do_post_audio_for_user_channel twoChanPending 1 2 none).1,
         [Out.sendMessage 1 "خطا: فایل صوتی مفقود شد."]) := by
  refine ⟨?_, ?_, ?_⟩
  · exact (C8_pending_overwrite_and_consume twoChanState 1 2 2 sampleMsg none none
      (pend_of_audio sampleMsg)).1 (by decide)
  · exact (C8_pending_overwrite_and_consume twoChanPending 1 2 2 sampleMsg none none
      (pend_of_audio sampleMsg)).2.1 (by decide)
  · exact (C8_pending_overwrite_and_consume twoChanPending 1 2 2 sampleMsg none none
      (pend_of_audio sampleMsg)).2.2 (by decide)

/-- C9: consumption is not atomic with a successful relay — the pending
entry is popped before the channel lookup, a missing channel only yields
an error message with the entry already gone, the entry stays gone
whatever the send outcome, and a later selection callback finding no
pending entry answers with the audio-not-found text and performs no
relay. -/
theorem C9_pop_before_validation (st : BotState) (uid dbid : Nat) (pend : Pend)
    (res : Option String) (data : String)
    (hp : st.pending_audio uid = some pend) :
    (get_channel_by_dbid st.db dbid = none →
      do_post_audio_for_user_channel st uid dbid res
        = ({ st with pending_audio := mapSet st.pending_audio uid none },
           [Out.sendMessage uid "کانال انتخابی یافت نشد."])) ∧
    ((do_post_audio_for_user_channel st uid dbid res).1.pending_audio uid = none) ∧
    (∀ st' : BotState, st'.pending_audio uid = none → strStartsWith data "post:" = true →
      parseNat? (data.data.drop 5) = some dbid →
      callback_query_handler st' uid data res
        = (st', [Out.editMessageText "فایل صوتی پیدا نشد؛ لطفاً دوباره فایل را ارسال کنید."])) := by
  refine ⟨?_, ?_, ?_⟩
  · intro hc
    unfold do_post_audio_for_user_channel
    rw [hp, hc]
  · unfold do_post_audio_for_user_channel
    rw [hp]
    cases hc : get_channel_by_dbid st.db dbid with
    | none => simp [mapSet]
    | some rec =>
      cases res with
      | none => simp [mapSet]
      | some e => simp [mapSet]
  · intro st' hp' hsw hparse
    unfold callback_query_handler
    rw [if_pos hsw, hparse, hp']

/-- C9 witness: popping before validation at a concrete state — the
selected db id 9 does not exist, the entry is gone afterwards, and the
follow-up callback reports the audio as missing. -/
theorem C9_pop_before_validation_witness :
    (do_post_audio_for_user_channel twoChanPending 1 9 none
        = ({ twoChanPending with
              pending_audio := mapSet twoChanPending.pending_audio 1 none },
           [Out.sendMessage 1 "کانال انتخابی یافت نشد."])) ∧
    ((do_post_audio_for_user_channel twoChanPending 1 9 none).1.pending_audio 1 = none) ∧
    (callback_query_handler twoChanState 1 "post:9" none
      = (twoChanState,
         [Out.editMessageText "فایل صوتی پیدا نشد؛ لطفاً دوباره فایل را ارسال کنید."])) := by
  refine ⟨?_, ?_, ?_⟩
  · exact (C9_pop_before_validation twoChanPending 1 9 (pend_of_audio sampleMsg) none
      "post:9" (by decide)).1 (by decide)
  · exact (C9_pop_before_validation twoChanPending 1 9 (pend_of_audio sampleMsg) none
      "post:9" (by decide)).2.1
  · exact (C9_pop_before_validation twoChanPending 1 9 (pend_of_audio sampleMsg) none
      "post:9" (by decide)).2.2 twoChanState (by decide) (by decide) (by decide)

/-! ### Reachable-state invariant for the awaiting-logo map -/

/-- Every armed `awaiting_logo` entry points at a row the user owns. -/
def LogoOwned (aw : Nat → Option Nat) (l : List Chan) : Prop :=
  ∀ u dbid, aw u = some dbid → ∃ c ∈ l, c.id = dbid ∧ c.user_id = u

/-- Combined reachability invariant: well-formed table plus owned
awaiting-logo entries. -/
def Inv (st : BotState) : Prop :=
  WF st.db ∧ LogoOwned st.awaiting_logo st.db.channels

theorem LogoOwned_pres {aw : Nat → Option Nat} {l l' : List Chan}
    (h : LogoOwned aw l) (hp : ChanPres l l') : LogoOwned aw l' := by
  intro u dbid hu
  obtain ⟨c, hc, hid, huid⟩ := h u dbid hu
  obtain ⟨c', hc', hid', huid'⟩ := hp c hc
  exact ⟨c', hc', hid'.trans hid, huid'.trans huid⟩

/-- `do_post_audio_for_user_channel` never touches the `channels` table,
the AUTOINCREMENT counter, or the awaiting-logo map. -/
theorem do_post_frame (st : BotState) (u d : Nat) (r : Option String) :
    (do_post_audio_for_user_channel st u d r).1.db.channels = st.db.channels ∧
    (do_post_audio_for_user_channel st u d r).1.db.nextId = st.db.nextId ∧
    (do_post_audio_for_user_channel st u d r).1.awaiting_logo = st.awaiting_logo := by
  unfold do_post_audio_for_user_channel
  cases hp : st.pending_audio u with
  | none => exact ⟨rfl, rfl, rfl⟩
  | some pend =>
    cases hc : get_channel_by_dbid st.db d with
    | none => exact ⟨rfl, rfl, rfl⟩
    | some rec =>
      cases r with
      | none => exact ⟨rfl, rfl, rfl⟩
      | some e => exact ⟨rfl, rfl, rfl⟩

/-- `audio_handler` never touches the `channels` table, the counter, or
the awaiting-logo map. -/
theorem audio_handler_frame (st : BotState) (u : Nat) (m : AudioMsg) (r : Option String) :
    (audio_handler st u m r).1.db.channels = st.db.channels ∧
    (audio_handler st u m r).1.db.nextId = st.db.nextId ∧
    (audio_handler st u m r).1.awaiting_logo = st.awaiting_logo := by
  unfold audio_handler
  rcases hl : list_channels_of_user st.db u with _ | ⟨a, _ | ⟨b, rest⟩⟩ <;> simp only [hl]
  · exact ⟨trivial, trivial, trivial⟩
  · exact do_post_frame _ u a.id r
  · exact ⟨trivial, trivial, trivial⟩

/-- `callback_query_handler` never touches the `channels` table, the
counter, or the awaiting-logo map. -/
theorem callback_frame (st : BotState) (u : Nat) (data : String) (r : Option String) :
    (callback_query_handler st u data r).1.db.channels = st.db.channels ∧
    (callback_query_handler st u data r).1.db.nextId = st.db.nextId ∧
    (callback_query_handler st u data r).1.awaiting_logo = st.awaiting_logo := by
  unfold callback_query_handler
  by_cases hsw : strStartsWith data "post:" = true
  · rw [if_pos hsw]
    cases hn : parseNat? (data.data.drop 5) with
    | none => exact ⟨rfl, rfl, rfl⟩
    | some dbid =>
      cases hp : st.pending_audio u with
      | none => exact ⟨rfl, rfl, rfl⟩
      | some pend => exact do_post_frame st u dbid r
  · rw [if_neg hsw]
    exact ⟨rfl, rfl, rfl⟩

theorem WFl_ite {c : Prop} [Decidable c] {p : Chan → Bool} {f : Chan → Chan}
    {l : List Chan} {n : Nat} (h : WFl l n) (hf : ∀ x, (f x).id = x.id) :
    WFl (if c then updateWhere p f l else l) n := by
  split
  · exact WFl_updateWhere h hf
  · exact h

theorem chanPres_ite {c : Prop} [Decidable c] {p : Chan → Bool} {f : Chan → Chan}
    (hf : ∀ x, (f x).id = x.id ∧ (f x).user_id = x.user_id) (l : List Chan) :
    ChanPres l (if c then updateWhere p f l else l) := by
  split
  · exact chanPres_updateWhere hf l
  · exact chanPres_refl l

/-- `add_or_update_channel` keeps the table well-formed and keeps every
existing row's id and owner. -/
theorem add_or_update_channel_pres (db : DB) (u : Nat) (cid : String)
    (nm cap : Option String) (lg : Option (List Nat)) (md : Bool) (h : WF db) :
    WF (add_or_update_channel db u cid nm cap lg md).1 ∧
    ChanPres db.channels (add_or_update_channel db u cid nm cap lg md).1.channels := by
  unfold add_or_update_channel
  cases hfind : db.channels.find? (fun c => c.user_id == u && c.channel_id == cid) with
  | some existing =>
    cases md with
    | false =>
      cases hb : bytesTruthy lg with
      | false =>
        simp [hfind, hb]
        refine ⟨?_, ?_⟩
        · exact WFl_updateWhere h (fun x => rfl)
        · exact chanPres_updateWhere (by exact fun x => ⟨rfl, rfl⟩) _
      | true =>
        simp [hfind, hb]
        refine ⟨?_, ?_⟩
        · exact WFl_updateWhere (WFl_updateWhere h (fun x => rfl)) (fun x => rfl)
        · exact chanPres_trans (chanPres_updateWhere (by exact fun x => ⟨rfl, rfl⟩) _)
            (chanPres_updateWhere (by exact fun x => ⟨rfl, rfl⟩) _)
    | true =>
      cases hb : bytesTruthy lg with
      | false =>
        simp [hfind, hb]
        refine ⟨?_, ?_⟩
        · exact WFl_updateWhere
            (WFl_updateWhere (WFl_updateWhere h (fun x => rfl)) (fun x => rfl))
            (fun x => rfl)
        · exact chanPres_trans (chanPres_updateWhere (by exact fun x => ⟨rfl, rfl⟩) _)
            (chanPres_trans (chanPres_updateWhere (by exact fun x => ⟨rfl, rfl⟩) _)
              (chanPres_updateWhere (by exact fun x => ⟨rfl, rfl⟩) _))
      | true =>
        simp [hfind, hb]
        refine ⟨?_, ?_⟩
        · exact WFl_updateWhere (WFl_updateWhere
            (WFl_updateWhere (WFl_updateWhere h (fun x => rfl)) (fun x => rfl))
            (fun x => rfl)) (fun x => rfl)
        · exact chanPres_trans (chanPres_updateWhere (by exact fun x => ⟨rfl, rfl⟩) _)
            (chanPres_trans (chanPres_updateWhere (by exact fun x => ⟨rfl, rfl⟩) _)
              (chanPres_trans (chanPres_updateWhere (by exact fun x => ⟨rfl, rfl⟩) _)
                (chanPres_updateWhere (by exact fun x => ⟨rfl, rfl⟩) _)))
  | none =>
    cases md with
    | false =>
      simp [hfind]
      refine ⟨?_, ?_⟩
      · exact WFl_append_fresh h rfl
      · exact chanPres_append _ _
    | true =>
      simp [hfind]
      refine ⟨?_, ?_⟩
      · exact WFl_append_fresh (WFl_updateWhere h (fun x => rfl)) rfl
      · exact chanPres_trans (chanPres_updateWhere (by exact fun x => ⟨rfl, rfl⟩) _)
          (chanPres_append _ _)

/-- Every dispatched update preserves the reachability invariant. -/
theorem Inv_step (resize : List Nat → List Nat) (op : Op) (st : BotState)
    (h : Inv st) : Inv (step resize st op) := by
  obtain ⟨hwf, hlogo⟩ := h
  cases op with
  | addchannel sender args =>
    cases args with
    | nil => exact ⟨hwf, hlogo⟩
    | cons cid rest =>
      have hp := add_or_update_channel_pres st.db sender cid
        (if rest.isEmpty then none else some (String.intercalate " " rest)) none none false hwf
      exact ⟨hp.1, LogoOwned_pres hlogo hp.2⟩
  | setdefault sender dbid =>
    exact ⟨WFl_updateWhere (WFl_updateWhere hwf (fun x => rfl)) (fun x => rfl),
           LogoOwned_pres hlogo
             (chanPres_trans (chanPres_updateWhere (by exact fun x => ⟨rfl, rfl⟩) _)
               (chanPres_updateWhere (by exact fun x => ⟨rfl, rfl⟩) _))⟩
  | setname sender dbid name =>
    exact ⟨WFl_updateWhere hwf (fun x => rfl),
           LogoOwned_pres hlogo (chanPres_updateWhere (by exact fun x => ⟨rfl, rfl⟩) _)⟩
  | setcaption sender dbid cap =>
    exact ⟨WFl_updateWhere hwf (fun x => rfl),
           LogoOwned_pres hlogo (chanPres_updateWhere (by exact fun x => ⟨rfl, rfl⟩) _)⟩
  | setlogo sender dbid =>
    show Inv (cmd_setlogo st sender dbid).1
    unfold cmd_setlogo
    cases hrec : get_channel_by_dbid st.db dbid with
    | none => exact ⟨hwf, hlogo⟩
    | some rec =>
      by_cases ho : (rec.user_id == sender) = true
      · simp only [ho, if_true]
        refine ⟨hwf, ?_⟩
        intro u d hu
        by_cases hus : u = sender
        · subst hus
          simp [mapSet] at hu
          subst hu
          refine ⟨rec, List.mem_of_find?_eq_some hrec, ?_, ?_⟩
          · simpa using List.find?_some hrec
          · exact eq_of_beq ho
        · simp only [mapSet] at hu
          rw [if_neg hus] at hu
          exact hlogo u d hu
      · simp only [ho, if_false]
        exact ⟨hwf, hlogo⟩
  | photo sender bs =>
    show Inv (photo_handler st sender resize bs).1
    unfold photo_handler
    cases haw : st.awaiting_logo sender with
    | none => exact ⟨hwf, hlogo⟩
    | some dbid =>
      refine ⟨WFl_updateWhere hwf (fun x => rfl), ?_⟩
      intro u d hu
      by_cases hus : u = sender
      · subst hus
        simp [mapSet] at hu
      · simp only [mapSet] at hu
        rw [if_neg hus] at hu
        exact LogoOwned_pres hlogo (chanPres_updateWhere (by exact fun x => ⟨rfl, rfl⟩) _) u d hu
  | audio sender m r =>
    have hf := audio_handler_frame st sender m r
    constructor
    · show WFl (audio_handler st sender m r).1.db.channels (audio_handler st sender m r).1.db.nextId
      rw [hf.1, hf.2.1]
      exact hwf
    · show LogoOwned (audio_handler st sender m r).1.awaiting_logo
        (audio_handler st sender m r).1.db.channels
      rw [hf.2.2, hf.1]
      exact hlogo
  | callback sender data r =>
    have hf := callback_frame st sender data r
    constructor
    · show WFl (callback_query_handler st sender data r).1.db.channels
        (callback_query_handler st sender data r).1.db.nextId
      rw [hf.1, hf.2.1]
      exact hwf
    · show LogoOwned (callback_query_handler st sender data r).1.awaiting_logo
        (callback_query_handler st sender data r).1.db.channels
      rw [hf.2.2, hf.1]
      exact hlogo

/-- The invariant holds in every reachable state. -/
theorem Inv_run (resize : List Nat → List Nat) (ops : List Op) :
    Inv (run resize initState ops) := by
  have H : ∀ (l : List Op) (st : BotState), Inv st → Inv (run resize st l) := by
    intro l
    induction l with
    | nil => exact fun st h => h
    | cons op tl ih => exact fun st h => ih _ (Inv_step resize op st h)
  exact H ops initState
    ⟨⟨List.nodup_nil, fun c hc => absurd hc (List.not_mem_nil c)⟩,
     fun u d hu => Option.noConfusion hu⟩

/-- C10: in every reachable state, each `awaiting_logo` entry pairs a
user with a channel db id that user owns (`cmd_setlogo` arms it only
after the ownership check, and no handler ever changes a row's owner or
deletes a row); a photo from a user with no entry leaves the database
unchanged; and a photo from a user with an entry clears the entry and
updates exactly the rows with the armed id — all owned by the sender. -/
theorem C10_awaiting_logo_owned (resize : List Nat → List Nat) (ops : List Op)
    (sender : Nat) (photo_bytes : List Nat) (st : BotState)
    (hst : st = run resize initState ops) :
    (∀ u dbid, st.awaiting_logo u = some dbid →
      ∃ c ∈ st.db.channels, c.id = dbid ∧ c.user_id = u) ∧
    (st.awaiting_logo sender = none →
      (photo_handler st sender resize photo_bytes).1.db = st.db) ∧
    (∀ dbid, st.awaiting_logo sender = some dbid →
      (photo_handler st sender resize photo_bytes).1.awaiting_logo sender = none ∧
      (∀ c ∈ st.db.channels, c.id = dbid → c.user_id = sender) ∧
      (photo_handler st sender resize photo_bytes).1.db.channels
        = updateWhere (fun c => c.id == dbid)
            (fun c => { c with logo := some (resize photo_bytes) }) st.db.channels) := by
  subst hst
  obtain ⟨hwf, hlogo⟩ := Inv_run resize ops
  refine ⟨hlogo, ?_, ?_⟩
  · intro haw
    unfold photo_handler
    simp only [haw]
  · intro dbid haw
    unfold photo_handler
    simp only [haw]
    refine ⟨?_, ?_, trivial⟩
    · simp [mapSet]
    · intro c hc hcid
      obtain ⟨c₀, hc₀, hid₀, hu₀⟩ := hlogo sender dbid haw
      have hcc : c = c₀ := WFl_unique hwf hc hc₀ (by rw [hcid, hid₀])
      rw [hcc, hu₀]

/-- The update sequence for the C10 witness: user 1 adds channel `a`
(row id 1) and arms `/setlogo 1`. -/
def c10Ops : List Op := [Op.addchannel 1 ["a"], Op.setlogo 1 1]

/-- C10 witness: after user 1 arms the logo upload for their own row,
the next photo clears the entry and only rows owned by user 1 carry the
armed id. -/
theorem C10_awaiting_logo_owned_witness :
    ((photo_handler (run (fun b => b) initState c10Ops) 1 (fun b => b) [7]).1.awaiting_logo 1
        = none) ∧
    (∀ c ∈ (run (fun b => b) initState c10Ops).db.channels, c.id = 1 → c.user_id = 1) := by
  have H := (C10_awaiting_logo_owned (fun b => b) c10Ops 1 [7]
    (run (fun b => b) initState c10Ops) rfl).2.2 1 (by decide)
  exact ⟨H.1, H.2.1⟩

end CafeBot
